import Mathlib

/-
Verification development for the PoulStar chat client (src/app.py).

The file shallowly embeds the two pieces of logic the spec describes:
  * the streaming response decoder inside `get_ai_response` (lines 79-93 of
    app.py): line filtering, the fixed `data:` prefix, `str.strip`,
    `json.loads`, and the `data.get("token", {}).get("text", "")` extraction,
    together with the two `except` clauses;
  * the chat turn handler (lines 109-119 of app.py): appending the user
    message, accumulating the streamed fragments via `st.write_stream`, and
    appending the assistant message.

External-library behaviour that the code relies on is modelled explicitly:
Python machine integers do not occur (all data here is strings and lists);
`json.loads` is modelled by a fuel-based recursive-descent JSON reader over
the characters of the payload; `st.secrets` lookup failure modes follow the
Streamlit behaviour (FileNotFoundError when no secrets file exists, KeyError
when the file exists but lacks the key); `st.write_stream` accumulates string
chunks into one string, returning the empty string for an empty stream.
-/

/-- JSON values as produced by the Python `json.loads` call in app.py.
An object keeps its members in textual order; duplicate keys are resolved
by `lookupLast` below, matching the last-key-wins behaviour of Python
dict construction. Numbers are kept exactly as rationals. -/
inductive JValue : Type where
  | null : JValue
  | bool (b : Bool) : JValue
  | num (q : ℚ) : JValue
  | str (s : String) : JValue
  | arr (elems : List JValue) : JValue
  | obj (members : List (String × JValue)) : JValue

/-- JSON insignificant whitespace characters (RFC 8259 / Python json). -/
def jsonWsChar (c : Char) : Bool :=
  c = ' ' || c = '\t' || c = '\n' || c = '\r'

/-- Drop leading JSON whitespace. -/
def skipWs : List Char → List Char
  | [] => []
  | c :: cs => if jsonWsChar c then skipWs cs else c :: cs

/-- Value of one hexadecimal digit, used for \uXXXX escapes. -/
def hexVal (c : Char) : Option Nat :=
  if '0' ≤ c ∧ c ≤ '9' then some (c.toNat - '0'.toNat)
  else if 'a' ≤ c ∧ c ≤ 'f' then some (c.toNat - 'a'.toNat + 10)
  else if 'A' ≤ c ∧ c ≤ 'F' then some (c.toNat - 'A'.toNat + 10)
  else none

/-- Single-character JSON string escapes. -/
def unescapeChar (c : Char) : Option Char :=
  if c = '"' then some '"'
  else if c = '\\' then some '\\'
  else if c = '/' then some '/'
  else if c = 'b' then some (Char.ofNat 8)
  else if c = 'f' then some (Char.ofNat 12)
  else if c = 'n' then some '\n'
  else if c = 'r' then some '\r'
  else if c = 't' then some '\t'
  else none

/-- Read the body of a JSON string after the opening quote, returning the
decoded characters and the remaining input. Python json (strict mode)
rejects raw control characters inside strings. -/
def parseStringRest : Nat → List Char → Except String (List Char × List Char)
  | 0, _ => .error "json reader out of fuel"
  | _ + 1, [] => .error "Unterminated string"
  | fuel + 1, c :: cs =>
    if c = '"' then .ok ([], cs)
    else if c = '\\' then
      match cs with
      | [] => .error "Unterminated string"
      | e :: cs2 =>
        if e = 'u' then
          match cs2 with
          | h1 :: h2 :: h3 :: h4 :: cs3 =>
            match hexVal h1, hexVal h2, hexVal h3, hexVal h4 with
            | some v1, some v2, some v3, some v4 =>
              match parseStringRest fuel cs3 with
              | .ok (out, rest) =>
                .ok (Char.ofNat (((v1 * 16 + v2) * 16 + v3) * 16 + v4) :: out, rest)
              | .error m => .error m
            | _, _, _, _ => .error "Invalid \\uXXXX escape"
          | _ => .error "Invalid \\uXXXX escape"
        else
          match unescapeChar e with
          | some ch =>
            match parseStringRest fuel cs2 with
            | .ok (out, rest) => .ok (ch :: out, rest)
            | .error m => .error m
          | none => .error "Invalid \\escape"
    else if c.toNat < 32 then .error "Invalid control character"
    else
      match parseStringRest fuel cs with
      | .ok (out, rest) => .ok (c :: out, rest)
      | .error m => .error m

/-- Longest leading run of decimal digits. -/
def takeDigits : List Char → List Char × List Char
  | [] => ([], [])
  | c :: cs =>
    if c.isDigit then
      match takeDigits cs with
      | (ds, rest) => (c :: ds, rest)
    else ([], c :: cs)

/-- Numeric value of a digit run. -/
def digitsVal (ds : List Char) : Nat :=
  ds.foldl (fun acc c => acc * 10 + (c.toNat - '0'.toNat)) 0

/-- Optional fractional part of a JSON number. -/
def parseFrac : List Char → Except String (ℚ × List Char)
  | '.' :: cs =>
    match takeDigits cs with
    | ([], _) => .error "Expecting digits after decimal point"
    | (ds, rest) => .ok ((digitsVal ds : ℚ) / ((10 : ℚ) ^ ds.length), rest)
  | cs => .ok (0, cs)

/-- Optional exponent part of a JSON number, returned as a multiplier. -/
def parseExp : List Char → Except String (ℚ × List Char)
  | [] => .ok (1, [])
  | c :: cs =>
    if c = 'e' ∨ c = 'E' then
      match cs with
      | '+' :: cs1 =>
        match takeDigits cs1 with
        | ([], _) => .error "Expecting digits in exponent"
        | (ds, rest) => .ok ((10 : ℚ) ^ ((digitsVal ds : Int)), rest)
      | '-' :: cs1 =>
        match takeDigits cs1 with
        | ([], _) => .error "Expecting digits in exponent"
        | (ds, rest) => .ok ((10 : ℚ) ^ (-(digitsVal ds : Int)), rest)
      | cs1 =>
        match takeDigits cs1 with
        | ([], _) => .error "Expecting digits in exponent"
        | (ds, rest) => .ok ((10 : ℚ) ^ ((digitsVal ds : Int)), rest)
    else .ok (1, c :: cs)

/-- Read a JSON number (sign, integer part with no superfluous leading
zero, optional fraction, optional exponent). -/
def parseNumberFrom (cs : List Char) : Except String (ℚ × List Char) :=
  match cs with
  | '-' :: cs1 =>
    match takeDigits cs1 with
    | ([], _) => .error "Expecting value"
    | (ds, cs2) =>
      if 1 < ds.length ∧ ds.headD '0' = '0' then .error "Expecting value"
      else
        match parseFrac cs2 with
        | .error m => .error m
        | .ok (fr, cs3) =>
          match parseExp cs3 with
          | .error m => .error m
          | .ok (mult, cs4) => .ok (-(((digitsVal ds : ℚ) + fr) * mult), cs4)
  | cs1 =>
    match takeDigits cs1 with
    | ([], _) => .error "Expecting value"
    | (ds, cs2) =>
      if 1 < ds.length ∧ ds.headD '0' = '0' then .error "Expecting value"
      else
        match parseFrac cs2 with
        | .error m => .error m
        | .ok (fr, cs3) =>
          match parseExp cs3 with
          | .error m => .error m
          | .ok (mult, cs4) => .ok (((digitsVal ds : ℚ) + fr) * mult, cs4)

mutual

/-- Read one JSON value from the input (fuel-based recursive descent). -/
def parseValue : Nat → List Char → Except String (JValue × List Char)
  | 0, _ => .error "json reader out of fuel"
  | fuel + 1, cs =>
    match skipWs cs with
    | [] => .error "Expecting value"
    | c :: rest =>
      if c = '\x7b' then parseObjRest fuel rest
      else if c = '[' then parseArrRest fuel rest
      else if c = '"' then
        match parseStringRest (fuel + 1) rest with
        | .ok (chars, rest2) => .ok (.str (String.mk chars), rest2)
        | .error m => .error m
      else if c = 't' then
        match rest with
        | 'r' :: 'u' :: 'e' :: rest2 => .ok (.bool true, rest2)
        | _ => .error "Expecting value"
      else if c = 'f' then
        match rest with
        | 'a' :: 'l' :: 's' :: 'e' :: rest2 => .ok (.bool false, rest2)
        | _ => .error "Expecting value"
      else if c = 'n' then
        match rest with
        | 'u' :: 'l' :: 'l' :: rest2 => .ok (.null, rest2)
        | _ => .error "Expecting value"
      else if c = '-' ∨ c.isDigit then
        match parseNumberFrom (c :: rest) with
        | .ok (q, rest2) => .ok (.num q, rest2)
        | .error m => .error m
      else .error "Expecting value"

/-- Read the rest of a JSON object, after its opening brace. -/
def parseObjRest : Nat → List Char → Except String (JValue × List Char)
  | 0, _ => .error "json reader out of fuel"
  | fuel + 1, cs =>
    match skipWs cs with
    | '\x7d' :: rest => .ok (.obj [], rest)
    | other =>
      match parseMembers fuel other with
      | .ok (ms, rest) => .ok (.obj ms, rest)
      | .error m => .error m

/-- Read one or more `"key": value` members, up to the closing brace. -/
def parseMembers : Nat → List Char → Except String (List (String × JValue) × List Char)
  | 0, _ => .error "json reader out of fuel"
  | fuel + 1, cs =>
    match skipWs cs with
    | '"' :: cs1 =>
      match parseStringRest (fuel + 1) cs1 with
      | .error m => .error m
      | .ok (keyChars, cs2) =>
        match skipWs cs2 with
        | ':' :: cs3 =>
          match parseValue fuel cs3 with
          | .error m => .error m
          | .ok (v, cs4) =>
            match skipWs cs4 with
            | ',' :: cs5 =>
              match parseMembers fuel cs5 with
              | .error m => .error m
              | .ok (ms, rest) => .ok ((String.mk keyChars, v) :: ms, rest)
            | '\x7d' :: rest => .ok ([(String.mk keyChars, v)], rest)
            | _ => .error "Expecting comma delimiter"
        | _ => .error "Expecting colon delimiter"
    | _ => .error "Expecting property name enclosed in double quotes"

/-- Read the rest of a JSON array, after its opening bracket. -/
def parseArrRest : Nat → List Char → Except String (JValue × List Char)
  | 0, _ => .error "json reader out of fuel"
  | fuel + 1, cs =>
    match skipWs cs with
    | ']' :: rest => .ok (.arr [], rest)
    | other =>
      match parseElems fuel other with
      | .ok (es, rest) => .ok (.arr es, rest)
      | .error m => .error m

/-- Read one or more array elements, up to the closing bracket. -/
def parseElems : Nat → List Char → Except String (List JValue × List Char)
  | 0, _ => .error "json reader out of fuel"
  | fuel + 1, cs =>
    match parseValue fuel cs with
    | .error m => .error m
    | .ok (v, cs1) =>
      match skipWs cs1 with
      | ',' :: cs2 =>
        match parseElems fuel cs2 with
        | .error m => .error m
        | .ok (es, rest) => .ok (v :: es, rest)
      | ']' :: rest => .ok ([v], rest)
      | _ => .error "Expecting comma delimiter"

end

/-- Model of Python `json.loads` applied to the characters of the payload:
read one value, then require only whitespace to remain. The fuel bound is
generous; every nesting level and every member consumes input characters,
so well-formed inputs never exhaust it. -/
def jsonLoads (cs : List Char) : Except String JValue :=
  match parseValue (2 * cs.length + 8) cs with
  | .error m => .error m
  | .ok (v, rest) =>
    match skipWs rest with
    | [] => .ok v
    | _ => .error "Extra data"

/-- Characters stripped by Python `str.strip()` with no argument
(ASCII whitespace; the payloads at hand contain no exotic unicode spaces). -/
def pyWsChar (c : Char) : Bool :=
  c = ' ' || c = '\t' || c = '\n' || c = '\r' || c = '\x0b' || c = '\x0c'

/-- Model of Python `str.strip()`: remove leading and trailing whitespace. -/
def pyStrip (cs : List Char) : List Char :=
  ((cs.dropWhile pyWsChar).reverse.dropWhile pyWsChar).reverse

/-- The Python exception kinds that can arise on the paths modelled here.
`jsonDecodeError` (a ValueError) comes from `json.loads`; `attributeError`
from calling `.get` on a non-dict; `requestException` covers every
`requests.exceptions.RequestException` (connect failure, non-2xx status via
`raise_for_status`, mid-stream transport errors); `fileNotFoundError` and
`keyError` come from the `st.secrets` lookup. -/
inductive PyExc : Type where
  | fileNotFoundError : PyExc
  | keyError (key : String) : PyExc
  | jsonDecodeError (msg : String) : PyExc
  | attributeError (msg : String) : PyExc
  | requestException (msg : String) : PyExc
deriving DecidableEq

/-- Which exceptions the first handler (`except requests.exceptions.RequestException`)
catches. The second handler (`except Exception`) catches everything else. -/
def isRequestException : PyExc → Bool
  | .requestException _ => true
  | _ => false

/-- Rendering of `str(e)` used when an exception is interpolated into the
error fragment. The exact text of the library message is not significant
to any property here, only which handler fires. -/
def pyExcMessage : PyExc → String
  | .fileNotFoundError => "No secrets files found"
  | .keyError k => k
  | .jsonDecodeError m => m
  | .attributeError m => m
  | .requestException m => m

/-- Lookup in a JSON object member list with last-key-wins, matching the
dict that Python `json.loads` builds from duplicate keys. -/
def lookupLast (kvs : List (String × JValue)) (key : String) : Option JValue :=
  kvs.foldl (fun acc kv => if kv.fst = key then some kv.snd else acc) none

/-- Model of Python `d.get(key, default)`: defined on dicts, raises
AttributeError on every other value. -/
def pyDictGet (v : JValue) (key : String) (dflt : JValue) : Except PyExc JValue :=
  match v with
  | .obj kvs => .ok ((lookupLast kvs key).getD dflt)
  | _ => .error (.attributeError "object has no attribute get")

/-- One iteration of the line loop in `get_ai_response` (app.py lines 82-89):
skip empty lines, skip lines without the `data:` prefix, strip the payload,
skip empty payloads, parse it with `json.loads` and extract
`data.get("token", \x7b\x7d).get("text", "")`. `.ok none` means the line is
skipped, `.ok (some v)` means the fragment `v` is yielded, `.error e` means
the iteration raised the exception `e`. -/
def processLine (line : String) : Except PyExc (Option JValue) :=
  if line = "" then .ok none
  else if ("data:".data).isPrefixOf line.data then
    let jsonStr := pyStrip (line.data.drop 5)
    if jsonStr = [] then .ok none
    else
      match jsonLoads jsonStr with
      | .error m => .error (.jsonDecodeError m)
      | .ok data =>
        match pyDictGet data "token" (.obj []) with
        | .error e => .error e
        | .ok tok =>
          match pyDictGet tok "text" (.str "") with
          | .error e => .error e
          | .ok v => .ok (some v)
  else .ok none

/-- The fragment yielded by `except requests.exceptions.RequestException`
(app.py line 91). -/
def connectionErrorFragment (e : String) : String :=
  "\n\n**Error:** Could not connect to the AI server. Please try again later. (" ++ e ++ ")"

/-- The fragment yielded by `except Exception` (app.py line 93). -/
def unexpectedErrorFragment (e : String) : String :=
  "\n\n**An unexpected error occurred:** " ++ e

/-- The single error fragment produced by whichever handler catches `e`. -/
def handledErrorFragment (e : PyExc) : String :=
  if isRequestException e then connectionErrorFragment (pyExcMessage e)
  else unexpectedErrorFragment (pyExcMessage e)

/-- The fragment sequence produced by the streaming loop of
`get_ai_response` on a response body. The body is modelled as the list of
lines `iter_lines` delivers, together with an optional transport error that
`iter_lines` raises after them (`none` is a clean EOF). A line whose
processing raises is cut off by the matching handler, which yields one
final error fragment; a transport error mid-stream is caught by the
RequestException handler the same way. -/
def streamFragments : List String → Option String → List JValue
  | [], terr =>
    match terr with
    | none => []
    | some e => [.str (connectionErrorFragment e)]
  | l :: ls, terr =>
    match processLine l with
    | .ok none => streamFragments ls terr
    | .ok (some v) => v :: streamFragments ls terr
    | .error exc => [.str (handledErrorFragment exc)]

/-- The state of the Streamlit secret store as seen by
`st.secrets["HF_TOKEN"]`. -/
inductive SecretStore : Type where
  | missingFile : SecretStore
  | fileWithoutKey : SecretStore
  | present (token : String) : SecretStore

/-- Model of the `st.secrets["HF_TOKEN"]` lookup: Streamlit raises
FileNotFoundError when no secrets file exists at all, and KeyError when a
secrets file exists but has no such entry. -/
def stSecretsHfToken : SecretStore → Except PyExc String
  | .missingFile => .error .fileNotFoundError
  | .fileWithoutKey => .error (.keyError "HF_TOKEN")
  | .present t => .ok t

/-- One chat message, as stored in `st.session_state.messages`. -/
structure Message : Type where
  role : String
  content : String
deriving DecidableEq

/-- The two slider-controlled generation parameters of app.py. -/
structure GenerationConfig : Type where
  max_new_tokens : Nat
  temperature : ℚ
deriving DecidableEq

/-- The JSON body built at app.py lines 68-77. -/
structure Payload : Type where
  inputs : String
  max_new_tokens : Nat
  temperature : ℚ
  return_full_text : Bool
  stream : Bool
  wait_for_model : Bool
deriving DecidableEq

/-- Payload construction (app.py lines 66-77): the prompt string is
`tokenizer.apply_chat_template(messages, tokenize=False,
add_generation_prompt=True)`, modelled as an arbitrary function of the
message list, and the fixed parameter fields are attached. -/
def buildPayload (applyChatTemplate : List Message → String)
    (messages : List Message) (cfg : GenerationConfig) : Payload :=
  ⟨applyChatTemplate messages, cfg.max_new_tokens, cfg.temperature, false, true, true⟩

/-- What the HTTP layer does with one posted request: either
`requests.post`/`raise_for_status` raises a RequestException before any
line is delivered, or a stream of lines is delivered, optionally ending in
a transport error instead of a clean EOF. -/
inductive HttpResult : Type where
  | requestError (msg : String) : HttpResult
  | stream (lines : List String) (transportError : Option String) : HttpResult

/-- The observable outcome of iterating the `get_ai_response` generator:
`configError` is the `st.error` + bare `return` path (no fragments),
`raised` is an exception no handler catches (it propagates to the caller),
`fragments` is the yielded sequence. -/
inductive GenOutcome : Type where
  | configError : GenOutcome
  | raised (e : PyExc) : GenOutcome
  | fragments (fs : List JValue) : GenOutcome

/-- Embedding of `get_ai_response` (app.py lines 55-93). The network is an
oracle `httpPost` mapping the bearer token and the payload to an
`HttpResult`. -/
def get_ai_response (applyChatTemplate : List Message → String)
    (cfg : GenerationConfig) (httpPost : String → Payload → HttpResult)
    (secrets : SecretStore) (messages : List Message) : GenOutcome :=
  match stSecretsHfToken secrets with
  | .error .fileNotFoundError => .configError
  | .error e => .raised e
  | .ok hf_token =>
    let payload := buildPayload applyChatTemplate messages cfg
    match httpPost hf_token payload with
    | .requestError e => .fragments [.str (connectionErrorFragment e)]
    | .stream lines terr => .fragments (streamFragments lines terr)

/-- The text of a chunk as `st.write_stream` accumulates it, when the chunk
is a string. -/
def chunkText : JValue → Option String
  | .str s => some s
  | _ => none

/-- Model of `st.write_stream`: string chunks are concatenated in order and
the concatenation is returned; an empty stream returns the empty string.
A stream containing a non-string chunk makes `st.write_stream` return a
list of objects instead of a string, which is outside this model
(`none`). -/
def writeStream : List JValue → Option String
  | [] => some ""
  | f :: rest =>
    match chunkText f, writeStream rest with
    | some s, some r => some (s ++ r)
    | _, _ => none

/-- Outcome of one Streamlit script run through the chat turn handler:
`ok` is a completed run with the resulting history, `crashed` is a run
aborted by an uncaught exception (the history keeps the mutations already
performed), `nonTextStream` marks the unmodelled case in which
`st.write_stream` returned a non-string aggregate. -/
inductive TurnResult : Type where
  | ok (history : List Message) : TurnResult
  | crashed (history : List Message) (e : PyExc) : TurnResult
  | nonTextStream (history : List Message) : TurnResult
deriving DecidableEq

/-- The history a turn left behind, whatever the outcome. -/
def TurnResult.history : TurnResult → List Message
  | .ok h => h
  | .crashed h _ => h
  | .nonTextStream h => h

/-- Embedding of the chat turn handler (app.py lines 109-119): on a truthy
prompt, append the user message, run `get_ai_response` on the updated
history, accumulate the stream with `st.write_stream`, and append the
result as the assistant message. `promptInput = none` (no submission) and
the empty string (falsy) leave the history unchanged. -/
def chatTurn (applyChatTemplate : List Message → String) (cfg : GenerationConfig)
    (httpPost : String → Payload → HttpResult) (secrets : SecretStore)
    (messages : List Message) (promptInput : Option String) : TurnResult :=
  match promptInput with
  | none => .ok messages
  | some p =>
    if p = "" then .ok messages
    else
      let m1 := messages ++ [⟨"user", p⟩]
      match get_ai_response applyChatTemplate cfg httpPost secrets m1 with
      | .configError => .ok (m1 ++ [⟨"assistant", ""⟩])
      | .raised e => .crashed m1 e
      | .fragments fs =>
        match writeStream fs with
        | some s => .ok (m1 ++ [⟨"assistant", s⟩])
        | none => .nonTextStream m1

/-- The session-state initialisation of app.py lines 98-99: the history
starts with one assistant greeting. -/
def initMessages : List Message :=
  [⟨"assistant", "Hello! I am the PoulStar AI Assistant. How can I help you today?"⟩]

/-- The session histories reachable from the initial state by running chat
turns, over every choice of template, configuration, network behaviour,
secret-store state and prompt. A crashed run keeps the mutations it made
before the exception. -/
inductive Reachable : List Message → Prop where
  | init : Reachable initMessages
  | stepOk (h h' : List Message) (t : List Message → String) (c : GenerationConfig)
      (post : String → Payload → HttpResult) (s : SecretStore) (p : Option String) :
      Reachable h → chatTurn t c post s h p = .ok h' → Reachable h'
  | stepCrashed (h h' : List Message) (t : List Message → String) (c : GenerationConfig)
      (post : String → Payload → HttpResult) (s : SecretStore) (p : Option String) (e : PyExc) :
      Reachable h → chatTurn t c post s h p = .crashed h' e → Reachable h'
  | stepNonText (h h' : List Message) (t : List Message → String) (c : GenerationConfig)
      (post : String → Payload → HttpResult) (s : SecretStore) (p : Option String) :
      Reachable h → chatTurn t c post s h p = .nonTextStream h' → Reachable h'

/-- The event line `data:` followed by a JSON object whose token text
is `Hi` (braces written with hex escapes). -/
def hiLine : String := "data:\x7b\"token\":\x7b\"text\":\"Hi\"\x7d\x7d"

/-- The event line whose token text is the string ` there` (note the
leading space inside the JSON string, which `str.strip` on the payload
does not touch). -/
def thereLine : String := "data:\x7b\"token\":\x7b\"text\":\" there\"\x7d\x7d"

/-- The event line whose token text is `!`. -/
def bangLine : String := "data:\x7b\"token\":\x7b\"text\":\"!\"\x7d\x7d"

/-- The event line whose JSON object has a `token` member that is an empty
object, so `token.text` is missing. -/
def emptyTokenLine : String := "data:\x7b\"token\":\x7b\x7d\x7d"

/-- Whether the processing of one line completes without raising. -/
def lineOk (l : String) : Bool :=
  match processLine l with
  | .ok _ => true
  | .error _ => false

/-- The fragments contributed by a list of lines none of which raises:
skipped lines contribute nothing, event lines contribute their extracted
token text. -/
def yieldedFragments (lines : List String) : List JValue :=
  lines.filterMap (fun l =>
    match processLine l with
    | .ok o => o
    | .error _ => none)

/-- A fragment produced by one of the two exception handlers of
`get_ai_response`. -/
def isErrorFragment (s : String) : Prop :=
  (∃ e, s = connectionErrorFragment e) ∨ (∃ e, s = unexpectedErrorFragment e)

/-- A response body on which no line raises during processing. -/
def wellFormedStream (lines : List String) : Prop :=
  ∀ l ∈ lines, lineOk l = true

theorem head?_append_left {α : Type} (l t : List α) (h : l ≠ []) :
    (l ++ t).head? = l.head? := by
  cases l with
  | nil => exact absurd rfl h
  | cons a l => rfl

theorem streamFragments_clean (lines : List String) (terr : Option String)
    (h : ∀ l ∈ lines, lineOk l = true) :
    streamFragments lines terr =
      yieldedFragments lines ++
        (match terr with
         | none => []
         | some e => [JValue.str (connectionErrorFragment e)]) := by
  induction lines with
  | nil =>
    cases terr with
    | none => rfl
    | some e => rfl
  | cons l ls ih =>
    have hl : lineOk l = true := h l (List.mem_cons_self l ls)
    have hls : ∀ x ∈ ls, lineOk x = true := fun x hx => h x (List.mem_cons_of_mem l hx)
    cases hpl : processLine l with
    | ok o =>
      cases o with
      | none =>
        simp [streamFragments, hpl, yieldedFragments, List.filterMap_cons, ih hls]
      | some v =>
        simp [streamFragments, hpl, yieldedFragments, List.filterMap_cons, ih hls]
    | error exc =>
      rw [lineOk, hpl] at hl
      exact absurd hl (by simp)

theorem writeStream_append_str (fs : List JValue) (s r : String)
    (h : writeStream fs = some r) :
    writeStream (fs ++ [JValue.str s]) = some (r ++ s) := by
  induction fs generalizing r with
  | nil =>
    rw [writeStream] at h
    cases h
    show writeStream [JValue.str s] = some ("" ++ s)
    rw [writeStream, writeStream, chunkText]
    simp
  | cons f fs ih =>
    rw [writeStream] at h
    cases hc : chunkText f with
    | none => rw [hc] at h; exact absurd h (by simp)
    | some t =>
      rw [hc] at h
      cases hw : writeStream fs with
      | none => rw [hw] at h; exact absurd h (by simp)
      | some r2 =>
        rw [hw] at h
        have hr : r = t ++ r2 := by
          simpa using h.symm
        show writeStream (f :: (fs ++ [JValue.str s])) = some (r ++ s)
        rw [writeStream, hc, ih r2 hw, hr]
        simp [String.append_assoc]

theorem chatTurn_history_extends (t : List Message → String) (c : GenerationConfig)
    (post : String → Payload → HttpResult) (s : SecretStore)
    (h : List Message) (p : Option String) :
    ∃ tail, (chatTurn t c post s h p).history = h ++ tail := by
  cases p with
  | none => exact ⟨[], by simp [chatTurn, TurnResult.history]⟩
  | some q =>
    by_cases hq : q = ""
    · exact ⟨[], by simp [chatTurn, hq, TurnResult.history]⟩
    · cases hg : get_ai_response t c post s (h ++ [⟨"user", q⟩]) with
      | configError =>
        exact ⟨[⟨"user", q⟩, ⟨"assistant", ""⟩],
          by simp [chatTurn, hq, hg, TurnResult.history]⟩
      | raised e =>
        exact ⟨[⟨"user", q⟩], by simp [chatTurn, hq, hg, TurnResult.history]⟩
      | fragments fs =>
        cases hw : writeStream fs with
        | none =>
          exact ⟨[⟨"user", q⟩], by simp [chatTurn, hq, hg, hw, TurnResult.history]⟩
        | some str =>
          exact ⟨[⟨"user", q⟩, ⟨"assistant", str⟩],
            by simp [chatTurn, hq, hg, hw, TurnResult.history]⟩

/-- C1: on the input line sequence consisting of the `Hi` event line, a
blank keep-alive line and the ` there` event line, with a clean EOF, the
line-processing loop of `get_ai_response` yields exactly the fragments
`Hi` and ` there`, in arrival order: the blank line is discarded, the
`data:` prefix is stripped and the payload trimmed, and the `token.text`
field of each event is yielded. -/
theorem c1_concrete_stream_decodes_to_hi_there :
    streamFragments [hiLine, "", thereLine] none =
      [JValue.str "Hi", JValue.str " there"] := by rfl

/-- C4: an event line whose JSON object lacks the `token` member, or whose
`token` member is an object lacking the `text` member, makes the loop
yield the empty-string fragment instead of raising: the nested
`.get` calls fall back to their defaults. -/
theorem c4_missing_field_yields_empty_fragment (line : String)
    (kvs : List (String × JValue))
    (hpre : ("data:".data).isPrefixOf line.data = true)
    (hparse : jsonLoads (pyStrip (line.data.drop 5)) = Except.ok (JValue.obj kvs))
    (hmissing : lookupLast kvs "token" = none ∨
      ∃ kvs2, lookupLast kvs "token" = some (JValue.obj kvs2) ∧
        lookupLast kvs2 "text" = none) :
    processLine line = Except.ok (some (JValue.str "")) := by
  have hne : line ≠ "" := by
    intro h0
    rw [h0] at hpre
    exact absurd hpre (by decide)
  have hjs : pyStrip (line.data.drop 5) ≠ [] := by
    intro h0
    rw [h0] at hparse
    have hnil : jsonLoads ([] : List Char) = Except.error "Expecting value" := by rfl
    rw [hnil] at hparse
    exact Except.noConfusion hparse
  have h0 : lookupLast ([] : List (String × JValue)) "text" = none := rfl
  rcases hmissing with hmiss | ⟨kvs2, h1, h2⟩
  · simp [processLine, hne, hpre, hjs, hparse, pyDictGet, hmiss, h0]
  · simp [processLine, hne, hpre, hjs, hparse, pyDictGet, h1, h2]

/-- Witness for C4 at the concrete line `data:` + object with an empty
`token` object. -/
theorem c4_witness :
    processLine emptyTokenLine = Except.ok (some (JValue.str "")) :=
  c4_missing_field_yields_empty_fragment emptyTokenLine [("token", JValue.obj [])]
    (by decide) (by rfl) (Or.inr ⟨[], by rfl, by rfl⟩)

/-- C2: on every response body that raises mid-stream, be it a transport
error after the delivered lines or any exception while processing a line,
the loop yields exactly one final error fragment after the fragments
already produced, and the sequence ends there: nothing follows the error
fragment and nothing is retried. -/
theorem c2_failure_yields_one_final_error_fragment (lines : List String)
    (terr : Option String)
    (hfail : terr ≠ none ∨ ∃ l ∈ lines, lineOk l = false) :
    ∃ emsg, isErrorFragment emsg ∧
      streamFragments lines terr =
        yieldedFragments (lines.takeWhile lineOk) ++ [JValue.str emsg] := by
  induction lines with
  | nil =>
    rcases hfail with h | h
    · cases terr with
      | none => exact absurd rfl h
      | some e =>
        exact ⟨connectionErrorFragment e, Or.inl ⟨e, rfl⟩, by
          simp [streamFragments, yieldedFragments]⟩
    · simp at h
  | cons l ls ih =>
    cases hpl : processLine l with
    | ok o =>
      have hlok : lineOk l = true := by simp [lineOk, hpl]
      have hfail2 : terr ≠ none ∨ ∃ x ∈ ls, lineOk x = false := by
        rcases hfail with h | h
        · exact Or.inl h
        · rcases h with ⟨x, hx, hxf⟩
          rcases List.mem_cons.mp hx with rfl | hx2
          · rw [hlok] at hxf
            exact absurd hxf (by simp)
          · exact Or.inr ⟨x, hx2, hxf⟩
      rcases ih hfail2 with ⟨emsg, he, heq⟩
      refine ⟨emsg, he, ?_⟩
      cases o with
      | none =>
        simpa [streamFragments, hpl, List.takeWhile_cons, hlok,
          yieldedFragments, List.filterMap_cons] using heq
      | some v =>
        simpa [streamFragments, hpl, List.takeWhile_cons, hlok,
          yieldedFragments, List.filterMap_cons] using heq
    | error exc =>
      refine ⟨handledErrorFragment exc, ?_, ?_⟩
      · cases hr : isRequestException exc with
        | true =>
          exact Or.inl ⟨pyExcMessage exc, by simp [handledErrorFragment, hr]⟩
        | false =>
          exact Or.inr ⟨pyExcMessage exc, by simp [handledErrorFragment, hr]⟩
      · have hlf : lineOk l = false := by simp [lineOk, hpl]
        simp [streamFragments, hpl, List.takeWhile_cons, hlf, yieldedFragments]

/-- Witness for C2 at a one-line body followed by a transport error. -/
theorem c2_witness :
    ∃ emsg, isErrorFragment emsg ∧
      streamFragments [hiLine] (some "boom") =
        yieldedFragments ([hiLine].takeWhile lineOk) ++ [JValue.str emsg] :=
  c2_failure_yields_one_final_error_fragment [hiLine] (some "boom")
    (Or.inl (by simp))

/-- C3 counterexample: when a transport error cuts the stream after the
fragment `Hi` was produced, the turn handler commits the partial streamed
text: the assistant message appended to the history is the partial text
`Hi` followed by the error fragment, so the partial text is not
discarded. -/
theorem c3_counterexample :
    chatTurn (fun _ => "") ⟨512, 7/10⟩
      (fun _ _ => HttpResult.stream [hiLine] (some "boom"))
      (SecretStore.present "hf") [] (some "Hello") =
    TurnResult.ok [⟨"user", "Hello"⟩,
      ⟨"assistant", "Hi" ++ connectionErrorFragment "boom"⟩] ∧
    ("Hi".data.isPrefixOf ("Hi" ++ connectionErrorFragment "boom").data) = true :=
  ⟨by rfl, by decide⟩

/-- C3 amended: on a turn whose stream ends in a transport error, the turn
handler appends the user message and then one assistant message whose
content is the concatenation of the fragments produced before the failure
followed by the single error fragment; the partial streamed text is
committed to the history together with the error note, not discarded. -/
theorem c3_amended_partial_text_committed (tmpl : List Message → String)
    (cfg : GenerationConfig) (tok : String) (h : List Message) (p : String)
    (lines : List String) (e : String) (s : String)
    (hp : p ≠ "")
    (hok : ∀ l ∈ lines, lineOk l = true)
    (hws : writeStream (yieldedFragments lines) = some s) :
    chatTurn tmpl cfg (fun _ _ => HttpResult.stream lines (some e))
      (SecretStore.present tok) h (some p) =
    TurnResult.ok (h ++ [⟨"user", p⟩,
      ⟨"assistant", s ++ connectionErrorFragment e⟩]) := by
  have hsf := streamFragments_clean lines (some e) hok
  have hw2 := writeStream_append_str (yieldedFragments lines)
    (connectionErrorFragment e) s hws
  simp [chatTurn, hp, get_ai_response, stSecretsHfToken, hsf, hw2]

/-- Witness for the amended C3 at a concrete failing turn. -/
theorem c3_amended_witness :
    chatTurn (fun _ => "") ⟨512, 7/10⟩
      (fun _ _ => HttpResult.stream [hiLine] (some "boom"))
      (SecretStore.present "hf") [] (some "Hello") =
    TurnResult.ok ([] ++ [⟨"user", "Hello"⟩,
      ⟨"assistant", "Hi" ++ connectionErrorFragment "boom"⟩]) :=
  c3_amended_partial_text_committed (fun _ => "") ⟨512, 7/10⟩ "hf" [] "Hello"
    [hiLine] "boom" "Hi" (by decide) (by decide) (by rfl)

/-- C5 counterexample: with the secret store missing, the turn on the
prompt `Hello` still advances the conversation: the history afterwards is
the previous history extended by the user message and an empty assistant
message, and in particular differs from the history before the turn. -/
theorem c5_counterexample :
    chatTurn (fun _ => "") ⟨512, 7/10⟩ (fun _ _ => HttpResult.stream [] none)
      SecretStore.missingFile initMessages (some "Hello") =
    TurnResult.ok (initMessages ++ [⟨"user", "Hello"⟩, ⟨"assistant", ""⟩]) ∧
    initMessages ++ [⟨"user", "Hello"⟩, ⟨"assistant", ""⟩] ≠ initMessages :=
  ⟨by rfl, by decide⟩

/-- C5 amended: on a missing-credential turn the request is fatal and the
error state is surfaced (`get_ai_response` takes the `st.error` path and
yields nothing), but the conversation is still advanced: the user message
is appended before the call and an empty assistant message is appended
after it. -/
theorem c5_amended_config_error_still_advances (tmpl : List Message → String)
    (cfg : GenerationConfig) (post : String → Payload → HttpResult)
    (h : List Message) (p : String) (hp : p ≠ "") :
    get_ai_response tmpl cfg post SecretStore.missingFile (h ++ [⟨"user", p⟩]) =
        GenOutcome.configError ∧
      chatTurn tmpl cfg post SecretStore.missingFile h (some p) =
        TurnResult.ok (h ++ [⟨"user", p⟩, ⟨"assistant", ""⟩]) := by
  refine ⟨rfl, ?_⟩
  simp [chatTurn, hp, get_ai_response, stSecretsHfToken]

/-- Witness for the amended C5 at a concrete turn. -/
theorem c5_amended_witness :
    get_ai_response (fun _ => "") ⟨512, 7/10⟩ (fun _ _ => HttpResult.stream [] none)
        SecretStore.missingFile (initMessages ++ [⟨"user", "Hello"⟩]) =
      GenOutcome.configError ∧
    chatTurn (fun _ => "") ⟨512, 7/10⟩ (fun _ _ => HttpResult.stream [] none)
        SecretStore.missingFile initMessages (some "Hello") =
      TurnResult.ok (initMessages ++ [⟨"user", "Hello"⟩, ⟨"assistant", ""⟩]) :=
  c5_amended_config_error_still_advances (fun _ => "") ⟨512, 7/10⟩
    (fun _ _ => HttpResult.stream [] none) initMessages "Hello" (by decide)

/-- C6: starting from an empty conversation, a turn with the user prompt
`Hello` whose response streams the tokens `Hi` and `!` ends with exactly
the history user-`Hello` then assistant-`Hi!`: the user text is appended
as one user message and the concatenation of the streamed fragments as
one assistant message, in that order, with nothing else added. -/
theorem c6_end_to_end_turn :
    chatTurn (fun _ => "") ⟨512, 7/10⟩
      (fun _ _ => HttpResult.stream [hiLine, bangLine] none)
      (SecretStore.present "hf") [] (some "Hello") =
    TurnResult.ok [⟨"user", "Hello"⟩, ⟨"assistant", "Hi!"⟩] := by rfl

/-- C7: the streaming decode is deterministic in its input: feeding the
same well-formed body twice produces the identical ordered fragment
sequence. -/
theorem c7_decode_deterministic (lines1 lines2 : List String)
    (hsame : lines1 = lines2) (_hwf : wellFormedStream lines1) :
    streamFragments lines1 none = streamFragments lines2 none := by
  rw [hsame]

/-- Witness for C7 at a concrete well-formed body. -/
theorem c7_witness :
    streamFragments [hiLine, thereLine] none =
      streamFragments [hiLine, thereLine] none :=
  c7_decode_deterministic [hiLine, thereLine] [hiLine, thereLine] rfl
    (show ∀ l ∈ ([hiLine, thereLine] : List String), lineOk l = true by decide)

/-- C8: the prompt encoder is pure and stateless: building the request
payload twice from equal conversations and equal configurations, under the
same chat template, gives the same payload. -/
theorem c8_encoder_pure (tmpl : List Message → String)
    (m1 m2 : List Message) (c1 c2 : GenerationConfig)
    (hm : m1 = m2) (hc : c1 = c2) :
    buildPayload tmpl m1 c1 = buildPayload tmpl m2 c2 := by
  rw [hm, hc]

/-- Witness for C8 at a concrete conversation and configuration. -/
theorem c8_witness :
    buildPayload (fun _ => "prompt") [⟨"user", "Hello"⟩] ⟨512, 7/10⟩ =
      buildPayload (fun _ => "prompt") [⟨"user", "Hello"⟩] ⟨512, 7/10⟩ :=
  c8_encoder_pure (fun _ => "prompt") [⟨"user", "Hello"⟩] [⟨"user", "Hello"⟩]
    ⟨512, 7/10⟩ ⟨512, 7/10⟩ rfl rfl

/-- C9: every reachable session history is non-empty and starts with the
assistant greeting installed by the session-state initialisation; no turn
ever removes or precedes it. -/
theorem c9_history_starts_with_greeting (h : List Message) (hr : Reachable h) :
    h ≠ [] ∧ h.head? = some ⟨"assistant",
      "Hello! I am the PoulStar AI Assistant. How can I help you today?"⟩ := by
  induction hr with
  | init => exact ⟨by simp [initMessages], by simp [initMessages]⟩
  | stepOk h h' t c post s p hprev heq ih =>
    rcases chatTurn_history_extends t c post s h p with ⟨tail, hext⟩
    rw [heq] at hext
    have hh : h' = h ++ tail := hext
    rcases ih with ⟨hne, hhead⟩
    refine ⟨?_, ?_⟩
    · rw [hh]
      intro h0
      exact hne (List.append_eq_nil.mp h0).1
    · rw [hh, head?_append_left h tail hne]
      exact hhead
  | stepCrashed h h' t c post s p e hprev heq ih =>
    rcases chatTurn_history_extends t c post s h p with ⟨tail, hext⟩
    rw [heq] at hext
    have hh : h' = h ++ tail := hext
    rcases ih with ⟨hne, hhead⟩
    refine ⟨?_, ?_⟩
    · rw [hh]
      intro h0
      exact hne (List.append_eq_nil.mp h0).1
    · rw [hh, head?_append_left h tail hne]
      exact hhead
  | stepNonText h h' t c post s p hprev heq ih =>
    rcases chatTurn_history_extends t c post s h p with ⟨tail, hext⟩
    rw [heq] at hext
    have hh : h' = h ++ tail := hext
    rcases ih with ⟨hne, hhead⟩
    refine ⟨?_, ?_⟩
    · rw [hh]
      intro h0
      exact hne (List.append_eq_nil.mp h0).1
    · rw [hh, head?_append_left h tail hne]
      exact hhead

/-- Witness for C9 at the initial state. -/
theorem c9_witness :
    initMessages ≠ [] ∧ initMessages.head? = some ⟨"assistant",
      "Hello! I am the PoulStar AI Assistant. How can I help you today?"⟩ :=
  c9_history_starts_with_greeting initMessages Reachable.init

/-- C10: the credential handler catches only the absent-secret-store case:
with no secrets file, the FileNotFoundError is caught and the visible
error path is taken; with a secrets file that lacks the HF_TOKEN entry,
the lookup raises a KeyError that no handler catches, so it propagates
instead of taking the handled configuration-error path. -/
theorem c10_handler_catches_only_missing_file (tmpl : List Message → String)
    (cfg : GenerationConfig) (post : String → Payload → HttpResult)
    (messages : List Message) :
    get_ai_response tmpl cfg post SecretStore.fileWithoutKey messages =
        GenOutcome.raised (PyExc.keyError "HF_TOKEN") ∧
      get_ai_response tmpl cfg post SecretStore.missingFile messages =
        GenOutcome.configError :=
  ⟨rfl, rfl⟩
